import Mathlib

/-
Shallow embedding of the derived-metrics pipeline of the stock screener
(src/backend/ingestion.py together with the table shapes of
src/backend/models.py).

Modelling conventions:
* Python floats are modelled as rationals (ℚ); nullable columns are
  `Option ℚ`.
* Python truthiness on a nullable number (`if x:`) is `truthy`: false for
  `None` and for `0`, true otherwise.  `x or y` on nullable numbers is
  `pyOr`.
* The date-descending SQL queries of `compute_screener_data` are modelled
  by passing each series as a date-descending list; `.first()` is
  `List.head?`, `.offset(1).limit(5)` is `(·.drop 1).take 5`, `.limit(4)`
  is `·.take 4`.
* Python's `base ** (1/3)` returns a float for `base ≥ 0` and a complex
  number for `base < 0`.  The 3-year-CAGR expression is therefore embedded
  symbolically as `CagrVal`: `null` for Python `None`, `realV base` for
  the float `base ** (1/3) - 1`, and `complexV base` for the non-real
  complex result.  `CagrVal.pyFloat` interprets the real cases.
* The snapshot upsert of `compute_screener_data` is modelled exactly as in
  the source: the `values` dict is `ScreenerValues`, the setattr loop over
  an existing row is `apply_values`, and `ScreenerData(company_id=...,
  **values)` is `insert_values` (columns absent from the dict keep their
  column default, i.e. `none`).  The snapshot store for one company is an
  `Option ScreenerData`.
* The quote refresh of `run_incremental_update` (the only writer of
  `last_price` on a snapshot row) is `apply_quote_update`.
-/

namespace StockScreener

/-- Python truthiness of a nullable number: `None` and `0` are falsy. -/
def truthy (o : Option ℚ) : Bool :=
  match o with
  | none => false
  | some x => decide (x ≠ 0)

/-- Python `a or b` on nullable numbers: `b` when `a` is falsy, else `a`. -/
def pyOr (a b : Option ℚ) : Option ℚ :=
  if truthy a then a else b

/-- Result of the 3-year-CAGR expression `base ** (1/3) - 1` in Python:
`null` models `None`, `realV base` the real float result for `base ≥ 0`,
and `complexV base` the complex (non-real) result for `base < 0`. -/
inductive CagrVal where
  | null : CagrVal
  | realV : ℚ → CagrVal
  | complexV : ℚ → CagrVal
deriving DecidableEq

/-- Whether the Python value is a real number or `None` (i.e. not a
complex number). -/
def CagrVal.isReal : CagrVal → Bool
  | .complexV _ => false
  | _ => true

/-- The real number a `CagrVal` denotes: `realV base` is the Python float
`base ** (1/3) - 1`; `None` and complex values denote no real number. -/
noncomputable def CagrVal.pyFloat : CagrVal → Option ℝ
  | .null => none
  | .realV b => some (Real.rpow (b : ℝ) ((1 : ℝ) / 3) - 1)
  | .complexV _ => none

/-- One row of the `companies` table (the descriptor columns the composer
reads). -/
structure Company where
  ticker : String
  name : String
  exchange : String
  exchange_short : String
  country : String
  sector : String
  industry : String
deriving DecidableEq

/-- One row of the `income_statements` table (the nullable numeric columns
the composer reads). -/
structure IncomeStmt where
  revenue : Option ℚ
  gross_profit_ratio : Option ℚ
  operating_income_ratio : Option ℚ
  net_income_ratio : Option ℚ
  ebitda_ratio : Option ℚ
  net_income : Option ℚ
deriving DecidableEq

/-- One row of the `key_metrics` table (the nullable numeric columns the
composer reads). -/
structure KeyMetric where
  pe_ratio : Option ℚ
  forward_pe : Option ℚ
  price_to_sales : Option ℚ
  price_to_book : Option ℚ
  ev_to_ebitda : Option ℚ
  ev_to_revenue : Option ℚ
  enterprise_value : Option ℚ
  market_cap : Option ℚ
  roic : Option ℚ
  roe : Option ℚ
  roa : Option ℚ
  debt_to_equity : Option ℚ
  net_debt_to_ebitda : Option ℚ
  current_ratio : Option ℚ
deriving DecidableEq

/-- The `values` dict built by `compute_screener_data` (ingestion.py
lines 313-373): exactly the keys the composer writes. -/
structure ScreenerValues where
  ticker : String
  name : String
  exchange : String
  country : String
  sector : String
  industry : String
  market_cap : Option ℚ
  enterprise_value : Option ℚ
  pe_ratio : Option ℚ
  forward_pe : Option ℚ
  price_to_sales : Option ℚ
  price_to_book : Option ℚ
  ev_to_ebitda : Option ℚ
  ev_to_revenue : Option ℚ
  gross_margin : Option ℚ
  operating_margin : Option ℚ
  net_margin : Option ℚ
  ebitda_margin : Option ℚ
  roic : Option ℚ
  roe : Option ℚ
  roa : Option ℚ
  revenue_growth_yoy : Option ℚ
  revenue_growth_3yr_cagr : CagrVal
  earnings_growth_yoy : Option ℚ
  debt_to_equity : Option ℚ
  net_debt_to_ebitda : Option ℚ
  current_ratio : Option ℚ
  pe_5yr_avg : Option ℚ
  ev_ebitda_5yr_avg : Option ℚ
  gross_margin_5yr_avg : Option ℚ
  operating_margin_5yr_avg : Option ℚ
  net_margin_5yr_avg : Option ℚ
  roic_5yr_avg : Option ℚ
  roe_5yr_avg : Option ℚ
  forward_pe_vs_5yr_pct : Option ℚ
  ev_ebitda_vs_5yr_pct : Option ℚ
  gross_margin_vs_5yr_pct : Option ℚ
  operating_margin_vs_5yr_pct : Option ℚ
  roic_vs_5yr_pct : Option ℚ
  roe_vs_5yr_pct : Option ℚ
  computed_at : ℕ
deriving DecidableEq

/-- One row of the `screener_data` table: the columns of the composer's
`values` dict plus the three columns the composer never writes
(`last_price`, `short_percent_float`, `short_ratio`). -/
structure ScreenerData where
  ticker : String
  name : String
  exchange : String
  country : String
  sector : String
  industry : String
  market_cap : Option ℚ
  enterprise_value : Option ℚ
  last_price : Option ℚ
  pe_ratio : Option ℚ
  forward_pe : Option ℚ
  price_to_sales : Option ℚ
  price_to_book : Option ℚ
  ev_to_ebitda : Option ℚ
  ev_to_revenue : Option ℚ
  gross_margin : Option ℚ
  operating_margin : Option ℚ
  net_margin : Option ℚ
  ebitda_margin : Option ℚ
  roic : Option ℚ
  roe : Option ℚ
  roa : Option ℚ
  revenue_growth_yoy : Option ℚ
  revenue_growth_3yr_cagr : CagrVal
  earnings_growth_yoy : Option ℚ
  debt_to_equity : Option ℚ
  net_debt_to_ebitda : Option ℚ
  current_ratio : Option ℚ
  short_percent_float : Option ℚ
  short_ratio : Option ℚ
  pe_5yr_avg : Option ℚ
  ev_ebitda_5yr_avg : Option ℚ
  gross_margin_5yr_avg : Option ℚ
  operating_margin_5yr_avg : Option ℚ
  net_margin_5yr_avg : Option ℚ
  roic_5yr_avg : Option ℚ
  roe_5yr_avg : Option ℚ
  forward_pe_vs_5yr_pct : Option ℚ
  ev_ebitda_vs_5yr_pct : Option ℚ
  gross_margin_vs_5yr_pct : Option ℚ
  operating_margin_vs_5yr_pct : Option ℚ
  roic_vs_5yr_pct : Option ℚ
  roe_vs_5yr_pct : Option ℚ
  computed_at : ℕ
deriving DecidableEq

/-- `safe_avg` (ingestion.py lines 268-270): drop `None` entries, average
the rest, `None` when nothing remains. -/
def safe_avg (values : List (Option ℚ)) : Option ℚ :=
  let cleaned := values.filterMap id
  if cleaned.isEmpty then none else some (cleaned.sum / (cleaned.length : ℚ))

/-- `pct_vs_avg` (ingestion.py lines 272-275). -/
def pct_vs_avg (current avg : Option ℚ) : Option ℚ :=
  match current, avg with
  | some c, some a => if a ≠ 0 then some ((c - a) / |a|) else none
  | _, _ => none

/-- The trailing 5-year baseline average: the historical window query
`.offset(1).limit(5)` (ingestion.py lines 249-266) followed by `safe_avg`
over one field (lines 278-284). -/
def baseline_avg {α : Type} (f : α → Option ℚ) (series : List α) : Option ℚ :=
  safe_avg (((series.drop 1).take 5).map f)

/-- The YoY growth blocks of `compute_screener_data` (ingestion.py
lines 294-297 for revenue, 302-304 for net income): guarded by Python
truthiness of both values (so `None` and `0` both disable it) plus the
explicit `!= 0` check on the prior value. -/
def yoy_growth (f : IncomeStmt → Option ℚ) (stmts : List IncomeStmt) : Option ℚ :=
  match stmts with
  | s0 :: s1 :: _ =>
    match f s0, f s1 with
    | some a, some b => if a ≠ 0 ∧ b ≠ 0 then some ((a - b) / |b|) else none
    | _, _ => none
  | _ => none

/-- The 3-year revenue CAGR block of `compute_screener_data` (ingestion.py
lines 298-299): needs 4 periods, truthy `revenue` at index 0 and a truthy,
strictly positive `revenue` at index 3; the Python expression
`(r0 / r3) ** (1/3) - 1` is real for `r0 / r3 ≥ 0` and complex for
`r0 / r3 < 0`. -/
def cagr_3yr (stmts : List IncomeStmt) : CagrVal :=
  match stmts[0]?, stmts[3]? with
  | some s0, some s3 =>
    match s0.revenue, s3.revenue with
    | some r0, some r3 =>
      if r0 ≠ 0 ∧ r3 ≠ 0 ∧ 0 < r3 then
        if r0 / r3 < 0 then CagrVal.complexV (r0 / r3) else CagrVal.realV (r0 / r3)
      else CagrVal.null
    | _, _ => CagrVal.null
  | _, _ => CagrVal.null

/-- The `values` dict of `compute_screener_data` (ingestion.py
lines 306-373), as a function of the company row, the two date-descending
series, and the current time. -/
def screener_values (c : Company) (incomes : List IncomeStmt)
    (metrics : List KeyMetric) (now : ℕ) : ScreenerValues :=
  let latest_income := incomes.head?
  let latest_metric := metrics.head?
  let income_stmts := incomes.take 4
  let forward_pe := latest_metric.bind KeyMetric.forward_pe
  let current_pe := latest_metric.bind KeyMetric.pe_ratio
  let pe_5yr_avg := baseline_avg KeyMetric.pe_ratio metrics
  let ev_ebitda_5yr_avg := baseline_avg KeyMetric.ev_to_ebitda metrics
  let gross_margin_5yr_avg := baseline_avg IncomeStmt.gross_profit_ratio incomes
  let operating_margin_5yr_avg := baseline_avg IncomeStmt.operating_income_ratio incomes
  let net_margin_5yr_avg := baseline_avg IncomeStmt.net_income_ratio incomes
  let roic_5yr_avg := baseline_avg KeyMetric.roic metrics
  let roe_5yr_avg := baseline_avg KeyMetric.roe metrics
  { ticker := c.ticker
    name := c.name
    exchange := c.exchange_short
    country := c.country
    sector := c.sector
    industry := c.industry
    market_cap := latest_metric.bind KeyMetric.market_cap
    enterprise_value := latest_metric.bind KeyMetric.enterprise_value
    pe_ratio := current_pe
    forward_pe := forward_pe
    price_to_sales := latest_metric.bind KeyMetric.price_to_sales
    price_to_book := latest_metric.bind KeyMetric.price_to_book
    ev_to_ebitda := latest_metric.bind KeyMetric.ev_to_ebitda
    ev_to_revenue := latest_metric.bind KeyMetric.ev_to_revenue
    gross_margin := latest_income.bind IncomeStmt.gross_profit_ratio
    operating_margin := latest_income.bind IncomeStmt.operating_income_ratio
    net_margin := latest_income.bind IncomeStmt.net_income_ratio
    ebitda_margin := latest_income.bind IncomeStmt.ebitda_ratio
    roic := latest_metric.bind KeyMetric.roic
    roe := latest_metric.bind KeyMetric.roe
    roa := latest_metric.bind KeyMetric.roa
    revenue_growth_yoy := yoy_growth IncomeStmt.revenue income_stmts
    revenue_growth_3yr_cagr := cagr_3yr income_stmts
    earnings_growth_yoy := yoy_growth IncomeStmt.net_income income_stmts
    debt_to_equity := latest_metric.bind KeyMetric.debt_to_equity
    net_debt_to_ebitda := latest_metric.bind KeyMetric.net_debt_to_ebitda
    current_ratio := latest_metric.bind KeyMetric.current_ratio
    pe_5yr_avg := pe_5yr_avg
    ev_ebitda_5yr_avg := ev_ebitda_5yr_avg
    gross_margin_5yr_avg := gross_margin_5yr_avg
    operating_margin_5yr_avg := operating_margin_5yr_avg
    net_margin_5yr_avg := net_margin_5yr_avg
    roic_5yr_avg := roic_5yr_avg
    roe_5yr_avg := roe_5yr_avg
    forward_pe_vs_5yr_pct := pct_vs_avg (pyOr forward_pe current_pe) pe_5yr_avg
    ev_ebitda_vs_5yr_pct :=
      pct_vs_avg (latest_metric.bind KeyMetric.ev_to_ebitda) ev_ebitda_5yr_avg
    gross_margin_vs_5yr_pct :=
      pct_vs_avg (latest_income.bind IncomeStmt.gross_profit_ratio) gross_margin_5yr_avg
    operating_margin_vs_5yr_pct :=
      pct_vs_avg (latest_income.bind IncomeStmt.operating_income_ratio) operating_margin_5yr_avg
    roic_vs_5yr_pct := pct_vs_avg (latest_metric.bind KeyMetric.roic) roic_5yr_avg
    roe_vs_5yr_pct := pct_vs_avg (latest_metric.bind KeyMetric.roe) roe_5yr_avg
    computed_at := now }

/-- The setattr loop of the upsert (ingestion.py lines 375-377): every key
of the `values` dict overwrites the existing row; columns not in the dict
keep their current value. -/
def apply_values (v : ScreenerValues) (e : ScreenerData) : ScreenerData :=
  { e with
    ticker := v.ticker
    name := v.name
    exchange := v.exchange
    country := v.country
    sector := v.sector
    industry := v.industry
    market_cap := v.market_cap
    enterprise_value := v.enterprise_value
    pe_ratio := v.pe_ratio
    forward_pe := v.forward_pe
    price_to_sales := v.price_to_sales
    price_to_book := v.price_to_book
    ev_to_ebitda := v.ev_to_ebitda
    ev_to_revenue := v.ev_to_revenue
    gross_margin := v.gross_margin
    operating_margin := v.operating_margin
    net_margin := v.net_margin
    ebitda_margin := v.ebitda_margin
    roic := v.roic
    roe := v.roe
    roa := v.roa
    revenue_growth_yoy := v.revenue_growth_yoy
    revenue_growth_3yr_cagr := v.revenue_growth_3yr_cagr
    earnings_growth_yoy := v.earnings_growth_yoy
    debt_to_equity := v.debt_to_equity
    net_debt_to_ebitda := v.net_debt_to_ebitda
    current_ratio := v.current_ratio
    pe_5yr_avg := v.pe_5yr_avg
    ev_ebitda_5yr_avg := v.ev_ebitda_5yr_avg
    gross_margin_5yr_avg := v.gross_margin_5yr_avg
    operating_margin_5yr_avg := v.operating_margin_5yr_avg
    net_margin_5yr_avg := v.net_margin_5yr_avg
    roic_5yr_avg := v.roic_5yr_avg
    roe_5yr_avg := v.roe_5yr_avg
    forward_pe_vs_5yr_pct := v.forward_pe_vs_5yr_pct
    ev_ebitda_vs_5yr_pct := v.ev_ebitda_vs_5yr_pct
    gross_margin_vs_5yr_pct := v.gross_margin_vs_5yr_pct
    operating_margin_vs_5yr_pct := v.operating_margin_vs_5yr_pct
    roic_vs_5yr_pct := v.roic_vs_5yr_pct
    roe_vs_5yr_pct := v.roe_vs_5yr_pct
    computed_at := v.computed_at }

/-- The insert branch of the upsert (ingestion.py lines 378-380):
`ScreenerData(company_id=.., **values)`; the three columns not in the
`values` dict get their column default, `None`. -/
def insert_values (v : ScreenerValues) : ScreenerData :=
  { ticker := v.ticker
    name := v.name
    exchange := v.exchange
    country := v.country
    sector := v.sector
    industry := v.industry
    market_cap := v.market_cap
    enterprise_value := v.enterprise_value
    last_price := none
    pe_ratio := v.pe_ratio
    forward_pe := v.forward_pe
    price_to_sales := v.price_to_sales
    price_to_book := v.price_to_book
    ev_to_ebitda := v.ev_to_ebitda
    ev_to_revenue := v.ev_to_revenue
    gross_margin := v.gross_margin
    operating_margin := v.operating_margin
    net_margin := v.net_margin
    ebitda_margin := v.ebitda_margin
    roic := v.roic
    roe := v.roe
    roa := v.roa
    revenue_growth_yoy := v.revenue_growth_yoy
    revenue_growth_3yr_cagr := v.revenue_growth_3yr_cagr
    earnings_growth_yoy := v.earnings_growth_yoy
    debt_to_equity := v.debt_to_equity
    net_debt_to_ebitda := v.net_debt_to_ebitda
    current_ratio := v.current_ratio
    short_percent_float := none
    short_ratio := none
    pe_5yr_avg := v.pe_5yr_avg
    ev_ebitda_5yr_avg := v.ev_ebitda_5yr_avg
    gross_margin_5yr_avg := v.gross_margin_5yr_avg
    operating_margin_5yr_avg := v.operating_margin_5yr_avg
    net_margin_5yr_avg := v.net_margin_5yr_avg
    roic_5yr_avg := v.roic_5yr_avg
    roe_5yr_avg := v.roe_5yr_avg
    forward_pe_vs_5yr_pct := v.forward_pe_vs_5yr_pct
    ev_ebitda_vs_5yr_pct := v.ev_ebitda_vs_5yr_pct
    gross_margin_vs_5yr_pct := v.gross_margin_vs_5yr_pct
    operating_margin_vs_5yr_pct := v.operating_margin_vs_5yr_pct
    roic_vs_5yr_pct := v.roic_vs_5yr_pct
    roe_vs_5yr_pct := v.roe_vs_5yr_pct
    computed_at := v.computed_at }

/-- `compute_screener_data` (ingestion.py lines 228-382) for one company:
given the two date-descending series, the company's current snapshot-store
row (if any) and the current time, return the snapshot-store row after the
call.  If neither series has a latest record the function returns without
writing (lines 246-247). -/
def compute_screener_data (c : Company) (incomes : List IncomeStmt)
    (metrics : List KeyMetric) (existing : Option ScreenerData) (now : ℕ) :
    Option ScreenerData :=
  if incomes.head?.isNone && metrics.head?.isNone then existing
  else
    let v := screener_values c incomes metrics now
    match existing with
    | some e => some (apply_values v e)
    | none => some (insert_values v)

/-- The quote refresh of `run_incremental_update` (ingestion.py
lines 464-472) on one snapshot row: `q.get(key, old)` keeps the old value
when the key is absent from the quote. -/
def apply_quote_update (qm qp qpe : Option ℚ) (sd : ScreenerData) : ScreenerData :=
  { sd with
    market_cap := match qm with | some x => some x | none => sd.market_cap
    last_price := match qp with | some x => some x | none => sd.last_price
    pe_ratio := match qpe with | some x => some x | none => sd.pe_ratio }

/-- A concrete company row used by the concrete scenarios below. -/
def democo : Company :=
  { ticker := "ACME"
    name := "Acme Corp"
    exchange := "New York Stock Exchange"
    exchange_short := "NYSE"
    country := "US"
    sector := "Tech"
    industry := "Software" }

/-- An income-statement row carrying only a revenue figure. -/
def irev (r : Option ℚ) : IncomeStmt :=
  { revenue := r
    gross_profit_ratio := none
    operating_income_ratio := none
    net_income_ratio := none
    ebitda_ratio := none
    net_income := none }

/-- A key-metric row with every column null. -/
def km0 : KeyMetric :=
  { pe_ratio := none
    forward_pe := none
    price_to_sales := none
    price_to_book := none
    ev_to_ebitda := none
    ev_to_revenue := none
    enterprise_value := none
    market_cap := none
    roic := none
    roe := none
    roa := none
    debt_to_equity := none
    net_debt_to_ebitda := none
    current_ratio := none }

/-- A key-metric row carrying only a trailing and a forward P/E. -/
def kmPE (pe fpe : Option ℚ) : KeyMetric :=
  { km0 with pe_ratio := pe, forward_pe := fpe }

/-- A snapshot row as left by a first composer run (revenue 100) followed
by a quote refresh that set `last_price` to 42. -/
def c1prior : ScreenerData :=
  apply_quote_update none (some 42) none
    (insert_values (screener_values democo [irev (some 100)] [] 1))

/-- A two-period revenue history: 110 then (one year earlier) 100. -/
def c9inc : List IncomeStmt := [irev (some 110), irev (some 100)]

/-- The snapshot written by the first composer run on `c9inc` at time 1. -/
def c9s1 : ScreenerData := insert_values (screener_values democo c9inc [] 1)

/-- The snapshot written by the second composer run on `c9inc` at time 2,
upserting over `c9s1`. -/
def c9s2 : ScreenerData := apply_values (screener_values democo c9inc [] 2) c9s1

/-- A four-period revenue history 133, 1, 1, 100 (dates descending). -/
def c3inc : List IncomeStmt :=
  [irev (some 133), irev (some 1), irev (some 1), irev (some 100)]

/-- A four-period revenue history with a negative latest revenue:
-8, 1, 1, 1 (dates descending). -/
def c8inc : List IncomeStmt :=
  [irev (some (-8)), irev (some 1), irev (some 1), irev (some 1)]

/-- Metric series whose latest row has `forward_pe = 0` (falsy in Python)
and `pe_ratio = 15`, with a 5-year trailing P/E average of 12. -/
def c6metZero : List KeyMetric := [kmPE (some 15) (some 0), kmPE (some 12) none]

/-- Metric series whose latest row has `forward_pe = None` and
`pe_ratio = 15`, with a 5-year trailing P/E average of 12. -/
def c6metNull : List KeyMetric := [kmPE (some 15) none, kmPE (some 12) none]

lemma compute_empty_eq (c : Company) (e : Option ScreenerData) (now : ℕ) :
    compute_screener_data c [] [] e now = e := rfl

lemma compute_eq_of_ne (c : Company) (incomes : List IncomeStmt)
    (metrics : List KeyMetric) (e : Option ScreenerData) (now : ℕ)
    (hne : incomes ≠ [] ∨ metrics ≠ []) :
    compute_screener_data c incomes metrics e now =
      some (match e with
            | some e0 => apply_values (screener_values c incomes metrics now) e0
            | none => insert_values (screener_values c incomes metrics now)) := by
  have hg : (incomes.head?.isNone && metrics.head?.isNone) = false := by
    rcases hne with h | h
    · cases incomes with
      | nil => exact absurd rfl h
      | cons a l => simp
    · cases metrics with
      | nil => exact absurd rfl h
      | cons a l => simp
  unfold compute_screener_data
  rw [hg]
  cases e <;> rfl

/-- C7: for a company whose income-statement series and key-metric series
are both empty, the composer performs no write: the snapshot-store row
(whatever it was, present or absent) is returned unchanged, and the
function returns without error. -/
theorem compose_no_history_no_write (c : Company) (e : Option ScreenerData)
    (now : ℕ) : compute_screener_data c [] [] e now = e := rfl

/-- C1 counterexample: a company already has a snapshot row (`c1prior`,
produced by a composer run on revenue history `[100]` and a quote refresh
that set `last_price := 42`); re-running the composer with different
underlying data (revenue history `[200]`) yields a snapshot whose
`last_price` is still the earlier 42, so not every field of the existing
record is replaced. -/
theorem compose_stale_last_price :
    c1prior.last_price = some 42 ∧
    (compute_screener_data democo [irev (some 200)] [] (some c1prior) 2).map
        ScreenerData.last_price = some (some 42) := by
  constructor <;> rfl

/-- C1 amended: re-invoking the composer for a company with an existing
snapshot row replaces every field the composer computes (each equals the
value a fresh insert from the new data would carry, so nothing stale
survives among them), but the three columns the composer never writes —
`last_price`, `short_percent_float` and `short_ratio` — are carried over
from the existing row. -/
theorem compose_upsert_replaces_composed_fields (c : Company)
    (incomes : List IncomeStmt) (metrics : List KeyMetric) (e : ScreenerData)
    (now : ℕ) (hne : incomes ≠ [] ∨ metrics ≠ []) :
    compute_screener_data c incomes metrics (some e) now =
      some { insert_values (screener_values c incomes metrics now) with
             last_price := e.last_price
             short_percent_float := e.short_percent_float
             short_ratio := e.short_ratio } := by
  rw [compute_eq_of_ne c incomes metrics (some e) now hne]
  rfl

theorem compose_upsert_replaces_composed_fields_witness :
    compute_screener_data democo [irev (some 200)] [] (some c1prior) 2 =
      some { insert_values (screener_values democo [irev (some 200)] [] 2) with
             last_price := c1prior.last_price
             short_percent_float := c1prior.short_percent_float
             short_ratio := c1prior.short_ratio } :=
  compose_upsert_replaces_composed_fields democo [irev (some 200)] [] c1prior 2
    (Or.inl (by simp))

/-- C9: the composer is deterministic in everything but the timestamp:
invoking it twice in a row with unchanged series produces two snapshots
that agree on every field except `computed_at`. -/
theorem compose_idempotent (c : Company) (incomes : List IncomeStmt)
    (metrics : List KeyMetric) (e : Option ScreenerData) (t1 t2 : ℕ)
    (s1 s2 : ScreenerData)
    (h1 : compute_screener_data c incomes metrics e t1 = some s1)
    (h2 : compute_screener_data c incomes metrics
            (compute_screener_data c incomes metrics e t1) t2 = some s2) :
    s2 = { s1 with computed_at := s2.computed_at } := by
  by_cases hni : incomes = [] ∧ metrics = []
  · obtain ⟨hi, hm⟩ := hni
    subst hi; subst hm
    rw [compute_empty_eq, compute_empty_eq] at h2
    rw [compute_empty_eq] at h1
    rw [h1] at h2
    injection h2 with h2
    subst h2
    rfl
  · have hne : incomes ≠ [] ∨ metrics ≠ [] := by
      rcases not_and_or.mp hni with h | h
      · exact Or.inl h
      · exact Or.inr h
    rw [compute_eq_of_ne c incomes metrics e t1 hne] at h1 h2
    rw [compute_eq_of_ne c incomes metrics _ t2 hne] at h2
    injection h1 with h1
    injection h2 with h2
    subst h1; subst h2
    cases e <;> rfl

theorem compose_idempotent_witness :
    c9s2 = { c9s1 with computed_at := c9s2.computed_at } :=
  compose_idempotent democo c9inc [] none 1 2 c9s1 c9s2 rfl rfl

/-- C2 counterexample: with revenue history `[0, 100]` both revenues are
non-null and the prior revenue is nonzero, so the claim demands
`(0 - 100) / abs 100 = -1`; the code's truthiness guard on the latest
revenue yields null instead. -/
theorem yoy_growth_zero_latest_cex :
    (compute_screener_data democo [irev (some 0), irev (some 100)] [] none 0).map
        ScreenerData.revenue_growth_yoy = some none ∧
    some (((0 : ℚ) - 100) / |(100 : ℚ)|) ≠ (none : Option ℚ) := by
  constructor
  · rfl
  · simp

/-- C2 amended: for a date-descending income series with at least 2
periods, YoY revenue growth equals
`(latest.revenue - prior.revenue) / abs prior.revenue` whenever both
revenues are non-null and both are nonzero, and is null when either
revenue is null or either revenue is exactly zero (a latest revenue of
exactly zero also yields null, not only a zero prior); YoY earnings growth
satisfies the same property with net income in place of revenue. -/
theorem yoy_growth_spec (c : Company) (metrics : List KeyMetric)
    (e : Option ScreenerData) (now : ℕ) (s0 s1 : IncomeStmt)
    (rest : List IncomeStmt) (snap : ScreenerData)
    (h : compute_screener_data c (s0 :: s1 :: rest) metrics e now = some snap) :
    (∀ r0 r1 : ℚ, s0.revenue = some r0 → s1.revenue = some r1 → r0 ≠ 0 → r1 ≠ 0 →
        snap.revenue_growth_yoy = some ((r0 - r1) / |r1|)) ∧
    (s0.revenue = none ∨ s1.revenue = none ∨ s0.revenue = some 0 ∨
        s1.revenue = some 0 → snap.revenue_growth_yoy = none) ∧
    (∀ n0 n1 : ℚ, s0.net_income = some n0 → s1.net_income = some n1 → n0 ≠ 0 →
        n1 ≠ 0 → snap.earnings_growth_yoy = some ((n0 - n1) / |n1|)) ∧
    (s0.net_income = none ∨ s1.net_income = none ∨ s0.net_income = some 0 ∨
        s1.net_income = some 0 → snap.earnings_growth_yoy = none) := by
  rw [compute_eq_of_ne c _ metrics e now (Or.inl (by simp))] at h
  have hr : snap.revenue_growth_yoy =
      yoy_growth IncomeStmt.revenue ((s0 :: s1 :: rest).take 4) := by
    cases e <;> (injection h with h; subst h; rfl)
  have he : snap.earnings_growth_yoy =
      yoy_growth IncomeStmt.net_income ((s0 :: s1 :: rest).take 4) := by
    cases e <;> (injection h with h; subst h; rfl)
  have htake : (s0 :: s1 :: rest).take 4 = s0 :: s1 :: rest.take 2 := by
    simp [List.take_succ_cons]
  rw [htake] at hr he
  refine ⟨?_, ?_, ?_, ?_⟩
  · intro r0 r1 h0 h1 hn0 hn1
    rw [hr]
    simp [yoy_growth, h0, h1, hn0, hn1]
  · intro hcase
    rw [hr]
    rcases hcase with h0 | h0 | h0 | h0 <;>
      rcases hs0 : s0.revenue with _ | a <;>
      rcases hs1 : s1.revenue with _ | b <;>
      simp_all [yoy_growth]
  · intro n0 n1 h0 h1 hn0 hn1
    rw [he]
    simp [yoy_growth, h0, h1, hn0, hn1]
  · intro hcase
    rw [he]
    rcases hcase with h0 | h0 | h0 | h0 <;>
      rcases hs0 : s0.net_income with _ | a <;>
      rcases hs1 : s1.net_income with _ | b <;>
      simp_all [yoy_growth]

theorem yoy_growth_spec_witness :
    (insert_values (screener_values democo c9inc [] 0)).revenue_growth_yoy =
      some ((110 - 100 : ℚ) / |(100 : ℚ)|) :=
  (yoy_growth_spec democo [] none 0 (irev (some 110)) (irev (some 100)) []
      (insert_values (screener_values democo c9inc [] 0)) rfl).1
    110 100 rfl rfl (by norm_num) (by norm_num)

/-- C3 counterexample: with revenue history `[0, 1, 1, 100]` there are 4
periods, `period[0].revenue` is non-null (it is 0) and
`period[3].revenue = 100 > 0`, so the claim demands the non-null value
`(0 / 100) ** (1 / 3) - 1`; the code's truthiness guard on the latest
revenue yields null instead. -/
theorem cagr_zero_latest_cex :
    (compute_screener_data democo
        [irev (some 0), irev (some 1), irev (some 1), irev (some 100)] [] none 0).map
        ScreenerData.revenue_growth_3yr_cagr = some CagrVal.null ∧
    CagrVal.null ≠ CagrVal.realV ((0 : ℚ) / 100) := by
  constructor
  · rfl
  · simp

/-- C3 amended: for every date-descending income series, the 3-year
revenue CAGR is null whenever the series has fewer than 4 periods; with at
least 4 periods it is the real value
`(period0.revenue / period3.revenue) ** (1 / 3) - 1` whenever both
revenues are non-null and strictly positive, and it is null exactly when
`period0.revenue` is null or exactly zero, or `period3.revenue` is null or
at most zero; when `period0.revenue` is negative while `period3.revenue`
is positive the code produces a non-real complex value rather than a null
or a float. -/
theorem cagr_spec (c : Company) (incomes : List IncomeStmt)
    (metrics : List KeyMetric) (e : Option ScreenerData) (now : ℕ)
    (snap : ScreenerData) (hne : incomes ≠ [] ∨ metrics ≠ [])
    (h : compute_screener_data c incomes metrics e now = some snap) :
    (incomes.length < 4 → snap.revenue_growth_3yr_cagr = CagrVal.null) ∧
    ∀ s0 s1 s2 s3 : IncomeStmt, ∀ rest : List IncomeStmt,
      incomes = s0 :: s1 :: s2 :: s3 :: rest →
    (∀ r0 r3 : ℚ, s0.revenue = some r0 → s3.revenue = some r3 → 0 < r0 → 0 < r3 →
        snap.revenue_growth_3yr_cagr = CagrVal.realV (r0 / r3) ∧
        CagrVal.pyFloat (CagrVal.realV (r0 / r3)) =
          some (Real.rpow (((r0 : ℚ) : ℝ) / ((r3 : ℚ) : ℝ)) ((1 : ℝ) / 3) - 1)) ∧
    (snap.revenue_growth_3yr_cagr = CagrVal.null ↔
        s0.revenue = none ∨ s0.revenue = some 0 ∨ s3.revenue = none ∨
        ∃ r3 : ℚ, s3.revenue = some r3 ∧ r3 ≤ 0) ∧
    (∀ r0 r3 : ℚ, s0.revenue = some r0 → s3.revenue = some r3 → r0 < 0 → 0 < r3 →
        snap.revenue_growth_3yr_cagr = CagrVal.complexV (r0 / r3) ∧
        CagrVal.isReal snap.revenue_growth_3yr_cagr = false) := by
  rw [compute_eq_of_ne c incomes metrics e now hne] at h
  have hfield : snap.revenue_growth_3yr_cagr = cagr_3yr (incomes.take 4) := by
    cases e <;> (injection h with h; subst h; rfl)
  constructor
  · intro hlen
    have h3 : (incomes.take 4)[3]? = none := by
      apply List.getElem?_eq_none
      simp only [List.length_take]
      omega
    rw [hfield]
    rcases h0 : (incomes.take 4)[0]? with _ | s <;> simp [cagr_3yr, h0, h3]
  rintro s0 s1 s2 s3 rest rfl
  have hcc : snap.revenue_growth_3yr_cagr =
      (match s0.revenue, s3.revenue with
       | some a, some b =>
         if a ≠ 0 ∧ b ≠ 0 ∧ 0 < b then
           if a / b < 0 then CagrVal.complexV (a / b) else CagrVal.realV (a / b)
         else CagrVal.null
       | _, _ => CagrVal.null) := hfield.trans rfl
  refine ⟨?_, ?_, ?_⟩
  · intro r0 r3 h0 h3 hr0 hr3
    have hne0 : r0 ≠ 0 := ne_of_gt hr0
    have hne3 : r3 ≠ 0 := ne_of_gt hr3
    have hdiv : ¬ r0 / r3 < 0 := not_lt.mpr (le_of_lt (div_pos hr0 hr3))
    constructor
    · rw [hcc, h0, h3]
      simp [hne0, hne3, hr3, hdiv]
    · simp [CagrVal.pyFloat, Rat.cast_div]
  · rw [hcc]
    rcases hs0 : s0.revenue with _ | r0 <;> rcases hs3 : s3.revenue with _ | r3
    · simp
    · simp
    · simp
    · rcases eq_or_ne r0 0 with h0 | h0
      · subst h0
        simp
      · rcases le_or_lt r3 0 with h3le | h3pos
        · have hlt : ¬ (0 : ℚ) < r3 := not_lt.mpr h3le
          simp [h0, hlt, h3le]
        · have hne3 : r3 ≠ 0 := ne_of_gt h3pos
          have hnot : ¬ r3 ≤ 0 := not_le.mpr h3pos
          by_cases hd : r0 / r3 < 0 <;> simp [h0, hne3, h3pos, hd, hnot]
  · intro r0 r3 h0 h3 hneg hpos
    have hdiv : r0 / r3 < 0 := div_neg_of_neg_of_pos hneg hpos
    have hval : snap.revenue_growth_3yr_cagr = CagrVal.complexV (r0 / r3) := by
      rw [hcc, h0, h3]
      simp [ne_of_lt hneg, ne_of_gt hpos, hpos, hdiv]
    exact ⟨hval, by rw [hval]; rfl⟩

theorem cagr_spec_witness :
    (insert_values (screener_values democo c3inc [] 0)).revenue_growth_3yr_cagr =
      CagrVal.realV ((133 : ℚ) / 100) ∧
    CagrVal.pyFloat (CagrVal.realV ((133 : ℚ) / 100)) =
      some (Real.rpow (((133 : ℚ) : ℝ) / ((100 : ℚ) : ℝ)) ((1 : ℝ) / 3) - 1) :=
  ((cagr_spec democo c3inc [] none 0
      (insert_values (screener_values democo c3inc [] 0))
      (Or.inl (by simp [c3inc])) rfl).2 (irev (some 133)) (irev (some 1))
      (irev (some 1)) (irev (some 100)) [] rfl).1 133 100 rfl rfl
    (by norm_num) (by norm_num)

/-- C8: the claim that degenerate arithmetic never yields a non-real value
is violated by the code: with revenue history `[-8, 1, 1, 1]` the CAGR
guard passes (latest revenue is truthy, `period[3].revenue = 1 > 0`) and
Python evaluates `(-8 / 1) ** (1 / 3)`, a complex number, so the composer
produces a non-real `revenue_growth_3yr_cagr` instead of the null the spec
requires for a non-positive base. -/
theorem cagr_complex_on_negative_revenue :
    (compute_screener_data democo c8inc [] none 0).map
        ScreenerData.revenue_growth_3yr_cagr =
      some (CagrVal.complexV (-8)) ∧
    CagrVal.isReal (CagrVal.complexV (-8)) = false := by
  constructor
  · simp [compute_screener_data, screener_values, insert_values, cagr_3yr, c8inc,
      irev, democo]
  · rfl

/-- C4: the trailing 5-year baseline average skips the single most-recent
period (replacing the head of the series does not change it), averages the
non-null field values among up to the next 5 periods ignoring nulls, is
null exactly when no non-null value remains in that window (so it never
divides by zero), and on the series `[skip, 10, 20, null, 30]` yields
`20`. -/
theorem baseline_avg_spec {α : Type} (f : α → Option ℚ) (l : List α) (a b : α)
    (tl : List α) :
    baseline_avg f (a :: tl) = baseline_avg f (b :: tl) ∧
    (baseline_avg f l = none ↔ ∀ x ∈ (l.drop 1).take 5, f x = none) ∧
    (((l.drop 1).take 5).filterMap f ≠ [] →
      baseline_avg f l =
        some ((((l.drop 1).take 5).filterMap f).sum /
          ((((l.drop 1).take 5).filterMap f).length : ℚ))) ∧
    baseline_avg id [some (999 : ℚ), some 10, some 20, none, some 30] = some 20 := by
  have hmap : ∀ (m : List α), (m.map f).filterMap id = m.filterMap f := by
    intro m
    rw [List.filterMap_map]
    simp
  refine ⟨rfl, ?_, ?_, ?_⟩
  · rw [show baseline_avg f l = safe_avg (((l.drop 1).take 5).map f) from rfl]
    unfold safe_avg
    rw [hmap]
    rcases hfm : ((l.drop 1).take 5).filterMap f with _ | ⟨y, ys⟩
    · simpa using List.filterMap_eq_nil_iff.mp hfm
    · simp only [List.isEmpty_cons, if_false, Bool.false_eq_true]
      constructor
      · intro hco
        exact absurd hco (by simp)
      · intro hall
        have : ((l.drop 1).take 5).filterMap f = [] :=
          List.filterMap_eq_nil_iff.mpr hall
        rw [this] at hfm
        exact absurd hfm (by simp)
  · intro hne
    rw [show baseline_avg f l = safe_avg (((l.drop 1).take 5).map f) from rfl]
    unfold safe_avg
    rw [hmap]
    rcases hfm : ((l.drop 1).take 5).filterMap f with _ | ⟨y, ys⟩
    · exact absurd hfm hne
    · simp
  · simp [baseline_avg, safe_avg]
    norm_num

theorem baseline_avg_spec_witness :
    baseline_avg some [(3 : ℚ), 10, 20] =
      some (([(3 : ℚ), 10, 20].drop 1 |>.take 5 |>.filterMap some).sum /
        (([(3 : ℚ), 10, 20].drop 1 |>.take 5 |>.filterMap some).length : ℚ)) ∧
    baseline_avg id [some (999 : ℚ), some 10, some 20, none, some 30] = some 20 :=
  ⟨(baseline_avg_spec some [(3 : ℚ), 10, 20] 0 0 []).2.2.1 (by simp),
   (baseline_avg_spec some [(3 : ℚ), 10, 20] 0 0 []).2.2.2⟩

/-- C5: percent-vs-average equals `(current - average) / abs average` when
both inputs are non-null and the average is nonzero, is null exactly when
either input is null or the average is exactly zero, and this one rule —
the single function `pct_vs_avg` — is what each of the six vs-average
deviation fields of the snapshot (forward P/E, EV/EBITDA, gross margin,
operating margin, ROIC, ROE) is computed with, with no metric-specific
special-casing. -/
theorem pct_vs_avg_uniform_spec (c : Company) (incomes : List IncomeStmt)
    (metrics : List KeyMetric) (e : Option ScreenerData) (now : ℕ)
    (snap : ScreenerData) (hne : incomes ≠ [] ∨ metrics ≠ [])
    (h : compute_screener_data c incomes metrics e now = some snap) :
    (∀ (cur av : Option ℚ) (x y : ℚ), cur = some x → av = some y → y ≠ 0 →
        pct_vs_avg cur av = some ((x - y) / |y|)) ∧
    (∀ cur av : Option ℚ, cur = none ∨ av = none ∨ av = some 0 →
        pct_vs_avg cur av = none) ∧
    snap.forward_pe_vs_5yr_pct =
      pct_vs_avg (pyOr (metrics.head?.bind KeyMetric.forward_pe)
          (metrics.head?.bind KeyMetric.pe_ratio))
        (baseline_avg KeyMetric.pe_ratio metrics) ∧
    snap.ev_ebitda_vs_5yr_pct =
      pct_vs_avg (metrics.head?.bind KeyMetric.ev_to_ebitda)
        (baseline_avg KeyMetric.ev_to_ebitda metrics) ∧
    snap.gross_margin_vs_5yr_pct =
      pct_vs_avg (incomes.head?.bind IncomeStmt.gross_profit_ratio)
        (baseline_avg IncomeStmt.gross_profit_ratio incomes) ∧
    snap.operating_margin_vs_5yr_pct =
      pct_vs_avg (incomes.head?.bind IncomeStmt.operating_income_ratio)
        (baseline_avg IncomeStmt.operating_income_ratio incomes) ∧
    snap.roic_vs_5yr_pct =
      pct_vs_avg (metrics.head?.bind KeyMetric.roic)
        (baseline_avg KeyMetric.roic metrics) ∧
    snap.roe_vs_5yr_pct =
      pct_vs_avg (metrics.head?.bind KeyMetric.roe)
        (baseline_avg KeyMetric.roe metrics) := by
  rw [compute_eq_of_ne c incomes metrics e now hne] at h
  refine ⟨?_, ?_, ?_, ?_, ?_, ?_, ?_, ?_⟩
  · intro cur av x y hx hy hy0
    subst hx; subst hy
    simp [pct_vs_avg, hy0]
  · intro cur av hcase
    rcases hcase with h0 | h0 | h0 <;> subst h0 <;>
      first
      | rfl
      | (rcases cur with _ | x <;> simp [pct_vs_avg])
  all_goals cases e <;> (injection h with h; subst h; rfl)

theorem pct_vs_avg_uniform_spec_witness :
    (insert_values (screener_values democo [] c6metNull 0)).roe_vs_5yr_pct =
      pct_vs_avg (c6metNull.head?.bind KeyMetric.roe)
        (baseline_avg KeyMetric.roe c6metNull) :=
  (pct_vs_avg_uniform_spec democo [] c6metNull none 0
      (insert_values (screener_values democo [] c6metNull 0))
      (Or.inr (by simp [c6metNull])) rfl).2.2.2.2.2.2.2

/-- C6 counterexample: with the latest metric row carrying
`forward_pe = 0` (non-null) and `pe_ratio = 15`, and a trailing P/E
average of 12, the claim demands the deviation be computed from the
forward P/E itself, `(0 - 12) / abs 12 = -1`; the code's Python `or`
treats the zero forward P/E as falsy and falls back to the trailing P/E,
producing `(15 - 12) / abs 12 = 1 / 4` instead. -/
theorem forward_pe_fallback_cex :
    (compute_screener_data democo [] c6metZero none 0).map
        ScreenerData.forward_pe_vs_5yr_pct = some (some (1 / 4)) ∧
    c6metZero.head?.bind KeyMetric.forward_pe = some 0 ∧
    pct_vs_avg (c6metZero.head?.bind KeyMetric.forward_pe)
        (baseline_avg KeyMetric.pe_ratio c6metZero) = some (-1) ∧
    (some ((1 : ℚ) / 4) ≠ some (-1 : ℚ)) := by
  refine ⟨?_, rfl, ?_, by norm_num⟩
  · simp [compute_screener_data, screener_values, insert_values, c6metZero, kmPE,
      km0, democo, pyOr, truthy, baseline_avg, safe_avg, pct_vs_avg]
    norm_num
  · simp [c6metZero, kmPE, km0, baseline_avg, safe_avg, pct_vs_avg]

/-- C6 amended: the "current" value for the forward-P/E deviation is
`forward_pe or pe_ratio` in the Python sense: the latest forward P/E when
it is non-null and nonzero, and the latest trailing P/E exactly when the
forward P/E is null or exactly zero; in particular, given
`forward_pe = None`, `pe_ratio = 15` and a trailing P/E average of 12, the
resulting `forward_pe_vs_5yr_pct` is `1 / 4 = 0.25`. -/
theorem forward_pe_fallback_spec (c : Company) (incomes : List IncomeStmt)
    (metrics : List KeyMetric) (e : Option ScreenerData) (now : ℕ)
    (snap : ScreenerData) (hne : incomes ≠ [] ∨ metrics ≠ [])
    (h : compute_screener_data c incomes metrics e now = some snap) :
    snap.forward_pe_vs_5yr_pct =
      pct_vs_avg (pyOr (metrics.head?.bind KeyMetric.forward_pe)
          (metrics.head?.bind KeyMetric.pe_ratio))
        (baseline_avg KeyMetric.pe_ratio metrics) ∧
    (∀ a b : Option ℚ, a = none ∨ a = some 0 → pyOr a b = b) ∧
    (∀ (a b : Option ℚ) (x : ℚ), a = some x → x ≠ 0 → pyOr a b = a) ∧
    (compute_screener_data democo [] c6metNull none 0).map
        ScreenerData.forward_pe_vs_5yr_pct = some (some (1 / 4)) := by
  rw [compute_eq_of_ne c incomes metrics e now hne] at h
  refine ⟨?_, ?_, ?_, ?_⟩
  · cases e <;> (injection h with h; subst h; rfl)
  · intro a b hcase
    rcases hcase with h0 | h0 <;> subst h0 <;> rfl
  · intro a b x hx hx0
    subst hx
    simp [pyOr, truthy, hx0]
  · simp [compute_screener_data, screener_values, insert_values, c6metNull, kmPE,
      km0, democo, pyOr, truthy, baseline_avg, safe_avg, pct_vs_avg]
    norm_num

theorem forward_pe_fallback_spec_witness :
    (insert_values (screener_values democo [] c6metNull 0)).forward_pe_vs_5yr_pct =
      pct_vs_avg (pyOr (c6metNull.head?.bind KeyMetric.forward_pe)
          (c6metNull.head?.bind KeyMetric.pe_ratio))
        (baseline_avg KeyMetric.pe_ratio c6metNull) :=
  (forward_pe_fallback_spec democo [] c6metNull none 0
      (insert_values (screener_values democo [] c6metNull 0))
      (Or.inr (by simp [c6metNull])) rfl).1

/-- C10: when exactly one of the two series is non-empty the composer
still writes a snapshot; every field derived from the missing series is
null, while the fields derived from the present series are populated
normally (copied from the latest present row, or computed by the baseline
averager, growth calculator and percent-vs-average rule over the present
series). -/
theorem compose_partial_history (c : Company) (e : Option ScreenerData)
    (now : ℕ) :
    (∀ (m : KeyMetric) (mt : List KeyMetric),
      (compute_screener_data c [] (m :: mt) e now).isSome = true ∧
      ∀ snap : ScreenerData,
        compute_screener_data c [] (m :: mt) e now = some snap →
          snap.gross_margin = none ∧ snap.operating_margin = none ∧
          snap.net_margin = none ∧ snap.ebitda_margin = none ∧
          snap.revenue_growth_yoy = none ∧
          snap.revenue_growth_3yr_cagr = CagrVal.null ∧
          snap.earnings_growth_yoy = none ∧
          snap.gross_margin_5yr_avg = none ∧
          snap.operating_margin_5yr_avg = none ∧
          snap.net_margin_5yr_avg = none ∧
          snap.gross_margin_vs_5yr_pct = none ∧
          snap.operating_margin_vs_5yr_pct = none ∧
          snap.market_cap = m.market_cap ∧
          snap.enterprise_value = m.enterprise_value ∧
          snap.pe_ratio = m.pe_ratio ∧ snap.forward_pe = m.forward_pe ∧
          snap.roic = m.roic ∧ snap.roe = m.roe ∧ snap.roa = m.roa ∧
          snap.pe_5yr_avg = baseline_avg KeyMetric.pe_ratio (m :: mt) ∧
          snap.roic_5yr_avg = baseline_avg KeyMetric.roic (m :: mt) ∧
          snap.roic_vs_5yr_pct =
            pct_vs_avg m.roic (baseline_avg KeyMetric.roic (m :: mt))) ∧
    (∀ (s : IncomeStmt) (st : List IncomeStmt),
      (compute_screener_data c (s :: st) [] e now).isSome = true ∧
      ∀ snap : ScreenerData,
        compute_screener_data c (s :: st) [] e now = some snap →
          snap.market_cap = none ∧ snap.enterprise_value = none ∧
          snap.pe_ratio = none ∧ snap.forward_pe = none ∧
          snap.price_to_sales = none ∧ snap.price_to_book = none ∧
          snap.ev_to_ebitda = none ∧ snap.ev_to_revenue = none ∧
          snap.roic = none ∧ snap.roe = none ∧ snap.roa = none ∧
          snap.debt_to_equity = none ∧ snap.net_debt_to_ebitda = none ∧
          snap.current_ratio = none ∧ snap.pe_5yr_avg = none ∧
          snap.ev_ebitda_5yr_avg = none ∧ snap.roic_5yr_avg = none ∧
          snap.roe_5yr_avg = none ∧ snap.forward_pe_vs_5yr_pct = none ∧
          snap.ev_ebitda_vs_5yr_pct = none ∧ snap.roic_vs_5yr_pct = none ∧
          snap.roe_vs_5yr_pct = none ∧
          snap.gross_margin = s.gross_profit_ratio ∧
          snap.operating_margin = s.operating_income_ratio ∧
          snap.net_margin = s.net_income_ratio ∧
          snap.ebitda_margin = s.ebitda_ratio ∧
          snap.revenue_growth_yoy =
            yoy_growth IncomeStmt.revenue ((s :: st).take 4) ∧
          snap.gross_margin_5yr_avg =
            baseline_avg IncomeStmt.gross_profit_ratio (s :: st) ∧
          snap.gross_margin_vs_5yr_pct =
            pct_vs_avg s.gross_profit_ratio
              (baseline_avg IncomeStmt.gross_profit_ratio (s :: st))) := by
  constructor
  · intro m mt
    constructor
    · rw [compute_eq_of_ne c [] (m :: mt) e now (Or.inr (by simp))]
      rfl
    · intro snap h
      rw [compute_eq_of_ne c [] (m :: mt) e now (Or.inr (by simp))] at h
      cases e <;> (injection h with h; subst h; exact ⟨rfl, rfl, rfl, rfl, rfl,
        rfl, rfl, rfl, rfl, rfl, rfl, rfl, rfl, rfl, rfl, rfl, rfl, rfl, rfl,
        rfl, rfl, rfl⟩)
  · intro s st
    constructor
    · rw [compute_eq_of_ne c (s :: st) [] e now (Or.inl (by simp))]
      rfl
    · intro snap h
      rw [compute_eq_of_ne c (s :: st) [] e now (Or.inl (by simp))] at h
      cases e <;> (injection h with h; subst h; exact ⟨rfl, rfl, rfl, rfl, rfl,
        rfl, rfl, rfl, rfl, rfl, rfl, rfl, rfl, rfl, rfl, rfl, rfl, rfl, rfl,
        rfl, rfl, rfl, rfl, rfl, rfl, rfl, rfl, rfl, rfl⟩)

theorem compose_partial_history_witness :
    (insert_values (screener_values democo [] c6metNull 0)).gross_margin = none ∧
    (insert_values (screener_values democo [] c6metNull 0)).pe_ratio =
      (kmPE (some 15) none).pe_ratio :=
  ⟨(((compose_partial_history democo none 0).1 (kmPE (some 15) none)
      [kmPE (some 12) none]).2 _ rfl).1,
   ((((compose_partial_history democo none 0).1 (kmPE (some 15) none)
      [kmPE (some 12) none]).2 _ rfl).2.2.2.2.2.2.2.2.2.2.2.2.2.2).1⟩

end StockScreener
